import Mathlib

/-!
Shallow embedding of `weight.py`, a personal weight-tracking script.

The script maintains a CSV log `weight_data.csv` with header
`Date,Weight1,Weight2,Weight3,Weight4`, parses it into parallel
date/daily-average-weight series, computes statistics (mean, max, min,
first differences, BMI) and renders plots.

Modelling choices:
* Python `datetime` dates become a `Date` structure (year, month, day);
  `datetime` comparison is mirrored by the numeric key
  `y*10000 + m*100 + d`, which agrees with calendar order on valid dates.
* A CSV measurement cell is abstracted by what the parser can observe of
  it: it is blank (empty or whitespace-only, so the `if row[key] and
  row[key].strip()` guard fails), or non-blank but unparseable (so
  `float(...)` raises `ValueError`), or parses to a number.  Numbers are
  modelled as rationals.
* File-system state in `main` becomes an explicit `Option` parameter:
  `none` when `weight_data.csv` does not exist, `some rows` for its
  parsed contents otherwise.  Console output and plot rendering become
  data recorded in the result.
-/

set_option maxRecDepth 100000

namespace Weight

/-- A calendar date as carried by Python `datetime` objects. -/
structure Date where
  year : Nat
  month : Nat
  day : Nat
deriving DecidableEq

/-- Gregorian leap-year rule used by Python's `datetime`. -/
def isLeap (y : Nat) : Bool :=
  y % 4 == 0 && (y % 100 != 0 || y % 400 == 0)

/-- Number of days of month `m` in year `y` (Gregorian calendar). -/
def daysInMonth (y m : Nat) : Nat :=
  if m = 2 then (if isLeap y then 29 else 28)
  else if m = 4 ∨ m = 6 ∨ m = 9 ∨ m = 11 then 30
  else 31

/-- Numeric key realising the `datetime` order on valid dates. -/
def Date.key (d : Date) : Nat :=
  d.year * 10000 + d.month * 100 + d.day

/-- `d` denotes an actual calendar day. -/
def Date.valid (d : Date) : Bool :=
  1 ≤ d.month && d.month ≤ 12 && 1 ≤ d.day && d.day ≤ daysInMonth d.year d.month

/-- `current_date + timedelta(days=1)` on calendar dates. -/
def nextDay (d : Date) : Date :=
  if d.day < daysInMonth d.year d.month then ⟨d.year, d.month, d.day + 1⟩
  else if d.month < 12 then ⟨d.year, d.month + 1, 1⟩
  else ⟨d.year + 1, 1, 1⟩

/-- `start_date = datetime(2025, 7, 1)` in `initialize_csv`. -/
def startDate : Date := ⟨2025, 7, 1⟩

/-- `end_date = datetime(2026, 12, 31)` in `initialize_csv`. -/
def endDate : Date := ⟨2026, 12, 31⟩

/-- The `while current_date <= end_date` loop of `initialize_csv`:
the dates it iterates over, in order.  Fuel-bounded recursion; 600 units
of fuel cover the 549-day range. -/
def genDates : Nat → Date → List Date
  | 0, _ => []
  | fuel + 1, cur =>
    if cur.key ≤ endDate.key then cur :: genDates fuel (nextDay cur) else []

/-- All dates written by `initialize_csv`, in file order. -/
def csvDateRange : List Date := genDates 600 startDate

/-- Zero-padded two-digit field of `strftime`. -/
def pad2 (n : Nat) : String :=
  if n < 10 then "0" ++ toString n else toString n

/-- `current_date.strftime('%Y.%m.%d')` (years here are four-digit). -/
def fmtDate (d : Date) : String :=
  toString d.year ++ "." ++ pad2 d.month ++ "." ++ pad2 d.day

/-- The header row written by `initialize_csv`. -/
def csvHeader : List String := ["Date", "Weight1", "Weight2", "Weight3", "Weight4"]

/-- `initialize_csv`: the rows written to `weight_data.csv` — the header
followed by one row per day of the range, all measurement cells empty. -/
def initialize_csv : List (List String) :=
  csvHeader :: csvDateRange.map (fun d => [fmtDate d, "", "", "", ""])

/-- What the parser can observe of one measurement cell of a row. -/
inductive Cell where
  | blank : Cell
  | invalid : Cell
  | num : ℚ → Cell
deriving DecidableEq

/-- One body of the `for i in range(1, 5)` loop of `read_weight_data`:
a blank cell fails the `if row[weight_key] and row[weight_key].strip()`
guard, an unparseable cell raises `ValueError` which is caught and
skipped, and a numeric cell contributes its value. -/
def parseCell : Cell → Option ℚ
  | .blank => none
  | .invalid => none
  | .num q => some q

/-- A data row of `weight_data.csv` as seen through `csv.DictReader`:
the date plus the four measurement cells `Weight1` … `Weight4`. -/
structure Row where
  date : Date
  w1 : Cell
  w2 : Cell
  w3 : Cell
  w4 : Cell
deriving DecidableEq

/-- The `weights` list accumulated for one row by the inner loop of
`read_weight_data`. -/
def rowWeights (r : Row) : List ℚ :=
  [r.w1, r.w2, r.w3, r.w4].filterMap parseCell

/-- `sum(l) / len(l)`, the arithmetic mean (also `np.mean`). -/
def listMean (l : List ℚ) : ℚ := l.sum / (l.length : ℚ)

/-- The row loop of `read_weight_data`, with the `dates` and
`daily_weights` accumulator lists made explicit. -/
def readLoop : List Row → List Date → List ℚ → List Date × List ℚ
  | [], dates, daily_weights => (dates, daily_weights)
  | r :: rest, dates, daily_weights =>
    let weights := rowWeights r
    if weights.isEmpty then
      readLoop rest dates daily_weights
    else
      readLoop rest (dates ++ [r.date]) (daily_weights ++ [listMean weights])

/-- `read_weight_data`: parse the data rows into parallel date and
daily-average-weight lists. -/
def read_weight_data (rows : List Row) : List Date × List ℚ :=
  readLoop rows [] []

/-- `calculate_statistics`: `(None, None, None)` on an empty list, else
mean (`np.mean`), maximum (`np.max`) and minimum (`np.min`).  The numpy
reductions over a nonempty list are left folds of `max` / `min`. -/
def calculate_statistics (weights : List ℚ) : Option ℚ × Option ℚ × Option ℚ :=
  match weights with
  | [] => (none, none, none)
  | w :: ws => (some (listMean (w :: ws)), some (ws.foldl max w), some (ws.foldl min w))

/-- `calculate_weight_changes`: the `for i in range(1, len(weights))`
loop appending `weights[i] - weights[i - 1]`. -/
def calculate_weight_changes (weights : List ℚ) : List ℚ :=
  ((List.range weights.length).drop 1).map
    (fun i => weights.getD i 0 - weights.getD (i - 1) 0)

/-- `calculate_bmi` (the Python default `height_cm=176` is passed
explicitly here). -/
def calculate_bmi (weight_kg height_cm : ℚ) : ℚ :=
  let height_m := height_cm / 100
  weight_kg / height_m ^ 2

/-- `get_latest_bmi`: `(None, None)` when `weights` is empty; otherwise
`dates[-1]` and the BMI of `weights[-1]`.  The indexing `dates[-1]` can
raise `IndexError` when `dates` is empty, modelled by `Except.error`. -/
def get_latest_bmi (dates : List Date) (weights : List ℚ) (height_cm : ℚ) :
    Except String (Option (Date × ℚ)) :=
  if weights.isEmpty then .ok none
  else
    match dates.getLast?, weights.getLast? with
    | some d, some w => .ok (some (d, calculate_bmi w height_cm))
    | _, _ => .error "IndexError"

/-- What the middle panel (`ax2`) of `create_plots` shows: either a
smoothing spline fitted to the ordinal dates and weights with smoothing
factor `s` (the spline values themselves live in scipy and are not
modelled), or a fallback text. -/
inductive SmoothPanel where
  | spline (dates : List Date) (weights : List ℚ) (s : ℚ) : SmoothPanel
  | fallback (msg : String) : SmoothPanel
deriving DecidableEq

/-- What the bottom panel (`ax3`) of `create_plots` shows. -/
inductive ChangePanel where
  | series (dates : List Date) (changes : List ℚ) : ChangePanel
  | fallback (msg : String) : ChangePanel
deriving DecidableEq

/-- `create_plots`, reduced to the data each conditional panel draws:
`ax2` gets a spline iff `len(weights) > 3` (with `s = len(weights)*0.8`),
`ax3` gets the change series against `dates[1:]` iff it is nonempty. -/
def create_plots (dates : List Date) (weights : List ℚ) (weight_changes : List ℚ) :
    SmoothPanel × ChangePanel :=
  ( if weights.length > 3 then
      SmoothPanel.spline dates weights ((weights.length : ℚ) * 0.8)
    else
      SmoothPanel.fallback "Not enough data for smoothing",
    if weight_changes.length > 0 then
      ChangePanel.series (dates.drop 1) weight_changes
    else
      ChangePanel.fallback "Not enough data for change rate calculation" )

/-- `HEIGHT_CM = 175` in `main`. -/
def HEIGHT_CM : ℚ := 175

/-- The observable outcome of one run of `main`. -/
inductive MainOutcome where
  /-- `weight_data.csv` did not exist: `initialize_csv()` wrote
  `newFile` and the two instructional messages were printed; `main`
  returned before any statistics or plots. -/
  | bootstrapped (newFile : List (List String)) (messages : List String) : MainOutcome
  /-- Parsing produced no daily weights: one message, then return. -/
  | noData (message : String) : MainOutcome
  /-- Full analysis: statistics, latest BMI, changes and plots. -/
  | analyzed (dates : List Date) (weights : List ℚ)
      (stats : Option ℚ × Option ℚ × Option ℚ)
      (latest : Except String (Option (Date × ℚ)))
      (changes : List ℚ)
      (plots : SmoothPanel × ChangePanel) : MainOutcome

/-- `main`, over the state of `weight_data.csv`: `none` if the file does
not exist, `some rows` for its parsed data rows otherwise. -/
def main (file : Option (List Row)) : MainOutcome :=
  match file with
  | none =>
    MainOutcome.bootstrapped initialize_csv
      ["CSV file created: weight_data.csv",
       "Please fill in the weight data and run the program again."]
  | some rows =>
    let p := read_weight_data rows
    if p.2.isEmpty then
      MainOutcome.noData "No weight data found in the CSV file."
    else
      MainOutcome.analyzed p.1 p.2 (calculate_statistics p.2)
        (get_latest_bmi p.1 p.2 HEIGHT_CM)
        (calculate_weight_changes p.2)
        (create_plots p.1 p.2 (calculate_weight_changes p.2))

/-- Did this run invoke `initialize_csv`? -/
def ranInitializeCsv : MainOutcome → Bool
  | .bootstrapped _ _ => true
  | _ => false

/-- Did this run reach the statistics/plots stage? -/
def computedAnalysis : MainOutcome → Bool
  | .analyzed .. => true
  | _ => false

/-- The bootstrap stage of `main` in isolation, acting on the raw file:
`if not os.path.exists('weight_data.csv'): initialize_csv()`.  Returns
the file contents afterwards and whether `initialize_csv` ran. -/
def bootstrapStage (file : Option (List (List String))) :
    Option (List (List String)) × Bool :=
  match file with
  | none => (some initialize_csv, true)
  | some contents => (some contents, false)

/-- All `⟨y, m, k⟩` triples with `y ∈ {2025, 2026}`, `m < 13`, `k < 32`,
in lexicographic (hence chronological) order. -/
def allCombos : List Date :=
  [2025, 2026].flatMap fun y =>
    (List.range 13).flatMap fun m =>
      (List.range 32).map fun k => ⟨y, m, k⟩

/-- The valid calendar days between `startDate` and `endDate`, ascending. -/
def allValidInRange : List Date :=
  allCombos.filter fun d => d.valid && startDate.key ≤ d.key && d.key ≤ endDate.key

/-- Linear strict-ascent check on the date keys of a list. -/
def ascending (l : List Date) : Bool :=
  (l.zip l.tail).all fun p => Nat.blt p.1.key p.2.key

/-- The rows of `read_weight_data` that contribute an entry: those with
at least one valid numeric cell. -/
def keptRows (rows : List Row) : List Row :=
  rows.filter fun r => !(rowWeights r).isEmpty

/-! ### Helper lemmas -/

lemma allValidInRange_eq : allValidInRange = csvDateRange := by decide

lemma csvDateRange_ascending : ascending csvDateRange = true := by decide

lemma chain'_of_ascending : ∀ l : List Date, ascending l = true →
    List.Chain' (fun a b : Date => a.key < b.key) l := by
  intro l
  induction l with
  | nil => intro _; simp
  | cons a t ih =>
    cases t with
    | nil => intro _; simp
    | cons b t2 =>
      intro h
      simp only [ascending, List.tail_cons, List.zip_cons_cons, List.all_cons,
        Bool.and_eq_true, Nat.blt_eq] at h
      rw [List.chain'_cons]
      refine ⟨h.1, ih ?_⟩
      simp only [ascending, List.tail_cons, List.all_eq_true]
      exact fun p hp => (List.all_eq_true.1 h.2) p hp

lemma daysInMonth_le31 (y m : Nat) : daysInMonth y m ≤ 31 := by
  unfold daysInMonth
  split
  · split <;> norm_num
  · split <;> norm_num

lemma mem_allCombos (d : Date) (hy : d.year = 2025 ∨ d.year = 2026)
    (hm : d.month < 13) (hk : d.day < 32) : d ∈ allCombos := by
  simp only [allCombos, List.mem_flatMap, List.mem_map, List.mem_range, List.mem_cons,
    List.mem_singleton, List.not_mem_nil, or_false]
  exact ⟨d.year, hy, d.month, hm, d.day, hk, rfl⟩

lemma coverage (d : Date) (hv : d.valid = true)
    (h1 : startDate.key ≤ d.key) (h2 : d.key ≤ endDate.key) : d ∈ csvDateRange := by
  rw [← allValidInRange_eq]
  simp only [Date.valid, Bool.and_eq_true, decide_eq_true_eq] at hv
  obtain ⟨⟨⟨hm1, hm2⟩, hk1⟩, hk2⟩ := hv
  have hdm := daysInMonth_le31 d.year d.month
  simp only [Date.key, startDate, endDate] at h1 h2
  refine List.mem_filter.2 ⟨mem_allCombos d ?_ (by omega) (by omega), ?_⟩
  · omega
  · simp only [Bool.and_eq_true, decide_eq_true_eq, Date.valid, Date.key, startDate, endDate]
    refine ⟨⟨?_, ?_⟩, ?_⟩ <;> omega

lemma csvDateRange_inRange (d : Date) (hd : d ∈ csvDateRange) :
    d.valid = true ∧ startDate.key ≤ d.key ∧ d.key ≤ endDate.key := by
  rw [← allValidInRange_eq] at hd
  have h := (List.mem_filter.1 hd).2
  simp only [Bool.and_eq_true, decide_eq_true_eq] at h
  exact ⟨h.1.1, h.1.2, h.2⟩

lemma readLoop_eq (rows : List Row) (ds : List Date) (ws : List ℚ) :
    readLoop rows ds ws =
      (ds ++ (keptRows rows).map Row.date,
       ws ++ (keptRows rows).map fun r => listMean (rowWeights r)) := by
  induction rows generalizing ds ws with
  | nil => simp [readLoop, keptRows]
  | cons r rest ih =>
    by_cases h : (rowWeights r).isEmpty = true
    · simp [readLoop, keptRows, h, List.filter_cons, ih]
    · simp only [Bool.not_eq_true] at h
      simp [readLoop, keptRows, h, List.filter_cons, ih]

lemma read_weight_data_eq (rows : List Row) :
    read_weight_data rows =
      ((keptRows rows).map Row.date,
       (keptRows rows).map fun r => listMean (rowWeights r)) := by
  simp [read_weight_data, readLoop_eq]

lemma foldl_max_mem : ∀ (l : List ℚ) (a : ℚ), l.foldl max a ∈ a :: l := by
  intro l
  induction l with
  | nil => simp
  | cons b t ih =>
    intro a
    rw [List.foldl_cons]
    rcases List.mem_cons.1 (ih (max a b)) with h1 | h1
    · rw [h1]
      rcases max_choice a b with hm | hm <;> simp [hm]
    · simp [List.mem_cons_of_mem, h1]

lemma le_foldl_max : ∀ (l : List ℚ) (a x : ℚ), x ∈ a :: l → x ≤ l.foldl max a := by
  intro l
  induction l with
  | nil =>
    intro a x hx
    simp at hx
    simp [hx]
  | cons b t ih =>
    intro a x hx
    rw [List.foldl_cons]
    have hhead : max a b ≤ t.foldl max (max a b) :=
      ih (max a b) (max a b) (List.mem_cons_self _ _)
    rcases List.mem_cons.1 hx with h1 | h1
    · subst h1
      exact le_trans (le_max_left x b) hhead
    · rcases List.mem_cons.1 h1 with h2 | h2
      · subst h2
        exact le_trans (le_max_right a x) hhead
      · exact ih (max a b) x (List.mem_cons_of_mem _ h2)

lemma foldl_min_mem : ∀ (l : List ℚ) (a : ℚ), l.foldl min a ∈ a :: l := by
  intro l
  induction l with
  | nil => simp
  | cons b t ih =>
    intro a
    rw [List.foldl_cons]
    rcases List.mem_cons.1 (ih (min a b)) with h1 | h1
    · rw [h1]
      rcases min_choice a b with hm | hm <;> simp [hm]
    · simp [List.mem_cons_of_mem, h1]

lemma foldl_min_le : ∀ (l : List ℚ) (a x : ℚ), x ∈ a :: l → l.foldl min a ≤ x := by
  intro l
  induction l with
  | nil =>
    intro a x hx
    simp at hx
    simp [hx]
  | cons b t ih =>
    intro a x hx
    rw [List.foldl_cons]
    have hhead : t.foldl min (min a b) ≤ min a b :=
      ih (min a b) (min a b) (List.mem_cons_self _ _)
    rcases List.mem_cons.1 hx with h1 | h1
    · subst h1
      exact le_trans hhead (min_le_left x b)
    · rcases List.mem_cons.1 h1 with h2 | h2
      · subst h2
        exact le_trans hhead (min_le_right a x)
      · exact ih (min a b) x (List.mem_cons_of_mem _ h2)

lemma calculate_weight_changes_length (ws : List ℚ) :
    (calculate_weight_changes ws).length = ws.length - 1 := by
  simp [calculate_weight_changes]

lemma calculate_weight_changes_zipWith (ws : List ℚ) :
    calculate_weight_changes ws = List.zipWith (fun a b => b - a) ws ws.tail := by
  apply List.ext_getElem
  · rcases ws with _ | ⟨a, t⟩
    · simp [calculate_weight_changes]
    · simp [calculate_weight_changes]
  · intro i h1 h2
    have hi : i + 1 < ws.length := by
      have := calculate_weight_changes_length ws
      omega
    simp only [calculate_weight_changes, List.getElem_map, List.getElem_drop,
      List.getElem_range, List.getElem_zipWith, List.getElem_tail]
    have e1 : 1 + i = i + 1 := by omega
    have e2 : i + 1 - 1 = i := by omega
    rw [e1, e2, List.getD_eq_getElem ws 0 hi,
      List.getD_eq_getElem ws 0 (by omega : i < ws.length)]

lemma filterMap_invalid_blank (l1 l2 : List Cell) :
    List.filterMap parseCell (l1 ++ Cell.invalid :: l2) =
      List.filterMap parseCell (l1 ++ Cell.blank :: l2) := by
  simp [List.filterMap_append, List.filterMap_cons, parseCell]

/-! ### Claim theorems -/

/-- C1: For every CSV row, the parser computes the daily average as the
arithmetic mean of the row's valid numeric measurement cells, pairing it
with the row's date (kept rows contribute their date and the mean of
their numeric cells, in parallel); in particular a row with cells
`[70, "", 71, ""]` yields daily average 70.5. -/
theorem C1_daily_average_is_mean :
    (∀ rows : List Row,
      read_weight_data rows =
        ((keptRows rows).map Row.date,
         (keptRows rows).map fun r => (rowWeights r).sum / ((rowWeights r).length : ℚ)))
    ∧ read_weight_data [⟨startDate, .num 70, .blank, .num 71, .blank⟩] =
        ([startDate], [70.5]) := by
  constructor
  · intro rows
    simpa [listMean] using read_weight_data_eq rows
  · simp [read_weight_data, readLoop, rowWeights, parseCell, listMean]
    norm_num

/-- C2: `calculate_weight_changes` returns the first differences of
consecutive elements, its length is the input length minus 1, and for
weights `[70, 71, 69]` the changes are `[1, -2]`. -/
theorem C2_changes_are_first_differences :
    (∀ ws : List ℚ,
      calculate_weight_changes ws = List.zipWith (fun a b => b - a) ws ws.tail)
    ∧ (∀ ws : List ℚ, (calculate_weight_changes ws).length = ws.length - 1)
    ∧ calculate_weight_changes [70, 71, 69] = [1, -2] := by
  refine ⟨calculate_weight_changes_zipWith, calculate_weight_changes_length, ?_⟩
  rw [calculate_weight_changes_zipWith]
  norm_num

/-- C3: A non-numeric (unparseable) measurement cell is silently ignored
rather than failing the row — it contributes no weight, and behaves
exactly like an empty cell at every position — and a row whose four
cells are all empty or non-numeric contributes no entry to the
date/weight series. -/
theorem C3_nonnumeric_cells_ignored :
    (parseCell Cell.invalid = none ∧ parseCell Cell.blank = none)
    ∧ (∀ (d : Date) (c1 c2 c3 c4 : Cell),
        rowWeights ⟨d, Cell.invalid, c2, c3, c4⟩ = rowWeights ⟨d, Cell.blank, c2, c3, c4⟩
        ∧ rowWeights ⟨d, c1, Cell.invalid, c3, c4⟩ = rowWeights ⟨d, c1, Cell.blank, c3, c4⟩
        ∧ rowWeights ⟨d, c1, c2, Cell.invalid, c4⟩ = rowWeights ⟨d, c1, c2, Cell.blank, c4⟩
        ∧ rowWeights ⟨d, c1, c2, c3, Cell.invalid⟩ = rowWeights ⟨d, c1, c2, c3, Cell.blank⟩)
    ∧ (∀ (rows : List Row) (r : Row), rowWeights r = [] →
        read_weight_data (r :: rows) = read_weight_data rows)
    ∧ (∀ d : Date,
        read_weight_data [⟨d, Cell.blank, Cell.invalid, Cell.blank, Cell.invalid⟩] = ([], []))
    ∧ read_weight_data [⟨startDate, .num 72, .invalid, .num 71, .blank⟩] =
        ([startDate], [71.5]) := by
  refine ⟨⟨rfl, rfl⟩, ?_, ?_, ?_, ?_⟩
  · intro d c1 c2 c3 c4
    refine ⟨?_, ?_, ?_, ?_⟩
    · simpa [rowWeights] using filterMap_invalid_blank [] [c2, c3, c4]
    · simpa [rowWeights] using filterMap_invalid_blank [c1] [c3, c4]
    · simpa [rowWeights] using filterMap_invalid_blank [c1, c2] [c4]
    · simpa [rowWeights] using filterMap_invalid_blank [c1, c2, c3] []
  · intro rows r h
    rw [read_weight_data_eq, read_weight_data_eq]
    have hk : keptRows (r :: rows) = keptRows rows := by
      simp [keptRows, List.filter_cons, h]
    rw [hk]
  · intro d
    simp [read_weight_data, readLoop, rowWeights, parseCell]
  · simp [read_weight_data, readLoop, rowWeights, parseCell, listMean]
    norm_num

/-- Witness for C3: the all-blank/unparseable row concretely drops out. -/
theorem C3_nonnumeric_cells_ignored_witness :
    rowWeights ⟨startDate, Cell.blank, Cell.invalid, Cell.blank, Cell.invalid⟩ = []
    ∧ read_weight_data [⟨startDate, Cell.blank, Cell.invalid, Cell.blank, Cell.invalid⟩] =
        read_weight_data [] :=
  ⟨by simp [rowWeights, parseCell],
   C3_nonnumeric_cells_ignored.2.2.1 []
     ⟨startDate, Cell.blank, Cell.invalid, Cell.blank, Cell.invalid⟩
     (by simp [rowWeights, parseCell])⟩

/-- C4: `calculate_statistics` on an empty list returns
`(None, None, None)`; on a nonempty list it returns the mean, the
maximum (an element at least every element) and the minimum (an element
at most every element). -/
theorem C4_statistics_empty_and_nonempty :
    calculate_statistics [] = (none, none, none)
    ∧ (∀ ws : List ℚ, ws ≠ [] →
        ∃ m mx mn, calculate_statistics ws = (some m, some mx, some mn)
          ∧ m = ws.sum / (ws.length : ℚ)
          ∧ mx ∈ ws ∧ (∀ x ∈ ws, x ≤ mx)
          ∧ mn ∈ ws ∧ (∀ x ∈ ws, mn ≤ x)) := by
  refine ⟨rfl, ?_⟩
  intro ws hws
  match ws with
  | w :: t =>
    refine ⟨listMean (w :: t), t.foldl max w, t.foldl min w, rfl, rfl, ?_, ?_, ?_, ?_⟩
    · exact foldl_max_mem t w
    · exact fun x hx => le_foldl_max t w x hx
    · exact foldl_min_mem t w
    · exact fun x hx => foldl_min_le t w x hx

/-- Witness for C4 at the nonempty input `[70, 71, 69]`. -/
theorem C4_statistics_witness :
    ([70, 71, 69] : List ℚ) ≠ []
    ∧ ∃ m mx mn, calculate_statistics [70, 71, 69] = (some m, some mx, some mn)
        ∧ m = ([70, 71, 69] : List ℚ).sum / ((([70, 71, 69] : List ℚ).length : ℕ) : ℚ)
        ∧ mx ∈ ([70, 71, 69] : List ℚ) ∧ (∀ x ∈ ([70, 71, 69] : List ℚ), x ≤ mx)
        ∧ mn ∈ ([70, 71, 69] : List ℚ) ∧ (∀ x ∈ ([70, 71, 69] : List ℚ), mn ≤ x) :=
  ⟨by simp, C4_statistics_empty_and_nonempty.2 [70, 71, 69] (by simp)⟩

/-- C5: `calculate_bmi` divides the weight in kg by the square of the
height converted to meters, and BMI(70 kg, 175 cm) ≈ 22.86. -/
theorem C5_bmi_formula :
    (∀ w h : ℚ, calculate_bmi w h = w / (h / 100) ^ 2)
    ∧ |calculate_bmi 70 175 - 22.86| < 0.01 := by
  constructor
  · intro w h
    rfl
  · rw [abs_lt]
    constructor <;> norm_num [calculate_bmi]

/-- C6: `initialize_csv` writes the header
`Date,Weight1,Weight2,Weight3,Weight4` followed by exactly one row per
calendar day of the range 2025.07.01 – 2026.12.31 inclusive (every day
of the range appears, each listed date is a valid day of the range, and
the dates are strictly ascending, hence each appears once), in
`YYYY.MM.DD` format, with all four measurement cells empty. -/
theorem C6_initialize_csv_writes_range :
    initialize_csv =
      ["Date", "Weight1", "Weight2", "Weight3", "Weight4"] ::
        csvDateRange.map (fun d => [fmtDate d, "", "", "", ""])
    ∧ List.Chain' (fun a b : Date => a.key < b.key) csvDateRange
    ∧ (∀ d ∈ csvDateRange, d.valid = true ∧ startDate.key ≤ d.key ∧ d.key ≤ endDate.key)
    ∧ (∀ d : Date, d.valid = true → startDate.key ≤ d.key → d.key ≤ endDate.key →
        d ∈ csvDateRange)
    ∧ csvDateRange.head? = some startDate
    ∧ csvDateRange.getLast? = some endDate
    ∧ fmtDate startDate = "2025.07.01" ∧ fmtDate endDate = "2026.12.31" := by
  refine ⟨rfl, chain'_of_ascending _ csvDateRange_ascending,
    fun d hd => csvDateRange_inRange d hd, coverage, ?_, ?_, ?_, ?_⟩
  · decide
  · decide
  · decide
  · decide

/-- Witness for C6: 2026.02.28 is a valid day of the range and indeed
appears among the bootstrapped dates. -/
theorem C6_initialize_csv_writes_range_witness :
    ((⟨2026, 2, 28⟩ : Date).valid = true
      ∧ startDate.key ≤ (⟨2026, 2, 28⟩ : Date).key
      ∧ (⟨2026, 2, 28⟩ : Date).key ≤ endDate.key)
    ∧ (⟨2026, 2, 28⟩ : Date) ∈ csvDateRange :=
  ⟨⟨by decide, by decide, by decide⟩,
   C6_initialize_csv_writes_range.2.2.2.1 ⟨2026, 2, 28⟩ (by decide) (by decide) (by decide)⟩

/-- C7: with no CSV file, `main` bootstraps the file, prints the two
instructional messages and returns without computing statistics or
plots; with a file whose parse yields no daily weights, it prints a
message and returns without computing statistics or plots. -/
theorem C7_early_exits :
    (main none = MainOutcome.bootstrapped initialize_csv
        ["CSV file created: weight_data.csv",
         "Please fill in the weight data and run the program again."]
      ∧ ranInitializeCsv (main none) = true
      ∧ computedAnalysis (main none) = false)
    ∧ (∀ rows : List Row, (read_weight_data rows).2 = [] →
        main (some rows) = MainOutcome.noData "No weight data found in the CSV file."
          ∧ computedAnalysis (main (some rows)) = false) := by
  refine ⟨⟨rfl, rfl, rfl⟩, ?_⟩
  intro rows h
  have h2 : (read_weight_data rows).2.isEmpty = true := by simp [h]
  constructor
  · simp [main, h2]
  · simp [main, h2, computedAnalysis]

/-- Witness for C7: the empty row list parses to no weights and exits. -/
theorem C7_early_exits_witness :
    (read_weight_data []).2 = []
    ∧ (main (some []) = MainOutcome.noData "No weight data found in the CSV file."
        ∧ computedAnalysis (main (some [])) = false) :=
  ⟨rfl, C7_early_exits.2 [] rfl⟩

/-- C8: when the CSV file exists, the bootstrap stage is an idempotent
no-op — it leaves the file contents unchanged and does not invoke
`initialize_csv`, whatever the parsed data turn out to be. -/
theorem C8_bootstrap_noop_when_file_exists :
    (∀ contents : List (List String),
      bootstrapStage (some contents) = (some contents, false))
    ∧ (∀ rows : List Row, ranInitializeCsv (main (some rows)) = false) := by
  constructor
  · intro contents
    rfl
  · intro rows
    unfold main
    by_cases h : (read_weight_data rows).2.isEmpty <;>
      simp [h, ranInitializeCsv]

/-- C9: the middle panel of `create_plots` fits and draws the smoothing
spline iff the daily series has at least 4 points; with fewer it shows
the fallback text instead. -/
theorem C9_spline_iff_four_points :
    ∀ (dates : List Date) (weights changes : List ℚ),
      (((create_plots dates weights changes).1 =
          SmoothPanel.spline dates weights ((weights.length : ℚ) * 0.8)) ↔
        4 ≤ weights.length)
      ∧ (weights.length < 4 →
          (create_plots dates weights changes).1 =
            SmoothPanel.fallback "Not enough data for smoothing") := by
  intro dates weights changes
  by_cases h : weights.length > 3
  · refine ⟨⟨fun _ => by omega, fun _ => by simp [create_plots, h]⟩, fun hlt => ?_⟩
    exact absurd h (by omega)
  · refine ⟨⟨fun heq => ?_, fun h4 => absurd h4 (by omega)⟩, fun _ => by simp [create_plots, h]⟩
    simp [create_plots, h] at heq

/-- Witness for C9: with an empty series the fallback text is shown. -/
theorem C9_spline_iff_four_points_witness :
    (([] : List ℚ).length < 4)
    ∧ (create_plots [] [] []).1 = SmoothPanel.fallback "Not enough data for smoothing" :=
  ⟨by decide, (C9_spline_iff_four_points [] [] []).2 (by decide)⟩

/-- C10: `read_weight_data` returns two lists of the same length, so
whenever the weight list is nonempty, `get_latest_bmi` finds a last date
and returns a value (no `IndexError`). -/
theorem C10_parallel_series :
    (∀ rows : List Row,
      (read_weight_data rows).1.length = (read_weight_data rows).2.length)
    ∧ (∀ (rows : List Row) (height : ℚ), (read_weight_data rows).2 ≠ [] →
        ∃ d bmi,
          get_latest_bmi (read_weight_data rows).1 (read_weight_data rows).2 height =
            Except.ok (some (d, bmi))) := by
  have hlen : ∀ rows : List Row,
      (read_weight_data rows).1.length = (read_weight_data rows).2.length := by
    intro rows
    rw [read_weight_data_eq]
    simp
  refine ⟨hlen, ?_⟩
  intro rows height hne
  have h1 : (read_weight_data rows).1 ≠ [] := by
    intro hnil
    apply hne
    apply List.length_eq_zero.1
    rw [← hlen rows, hnil]
    rfl
  obtain ⟨d, hd⟩ := Option.isSome_iff_exists.1 (List.getLast?_isSome.2 h1)
  obtain ⟨w, hw⟩ := Option.isSome_iff_exists.1 (List.getLast?_isSome.2 hne)
  refine ⟨d, calculate_bmi w height, ?_⟩
  have hemp : (read_weight_data rows).2.isEmpty = false := by
    simp [List.isEmpty_iff, hne]
  simp [get_latest_bmi, hemp, hd, hw]

/-- Witness for C10 at a one-row file. -/
theorem C10_parallel_series_witness :
    (read_weight_data [⟨startDate, .num 70, .blank, .blank, .blank⟩]).2 ≠ []
    ∧ ∃ d bmi,
        get_latest_bmi (read_weight_data [⟨startDate, .num 70, .blank, .blank, .blank⟩]).1
          (read_weight_data [⟨startDate, .num 70, .blank, .blank, .blank⟩]).2 175 =
          Except.ok (some (d, bmi)) :=
  ⟨by simp [read_weight_data, readLoop, rowWeights, parseCell],
   C10_parallel_series.2 [⟨startDate, .num 70, .blank, .blank, .blank⟩] 175
     (by simp [read_weight_data, readLoop, rowWeights, parseCell])⟩

end Weight
